import Mathlib

/-!
Shallow embedding of `src/modules/web/src/settings/global/component.ts`
(the `GlobalSettingsComponent` of the dashboard web module) together with
the collaborating services it uses, and proofs about its observable
behaviour: change detection (`canSave`), the save / conflict-dialog /
reload orchestration, and the load paths.

JavaScript objects holding settings are modelled as records whose fields
are `Option JsValue`: `none` means the key is absent from the object
(as in the initial `{} as GlobalSettings` or the six-field object literal
built by `onFormChange_`), `some v` means the key is present with value
`v`.  The lodash `isEqual` deep equality on such plain objects is
structural equality of these records.

Asynchronous observable pipelines are modelled by explicit step
functions: the synchronous part of each subscription callback is one
state transformer, and the externally produced values (HTTP results,
the dialog answer, the `canI` answer) are passed in as parameters.
Each step also returns the list of externally visible events it emits,
in the order the source code performs them.
-/

/-- A JavaScript value as it appears in form controls and settings
objects: numbers, strings, booleans, string lists, the object stored in
the namespace-settings control, and `null` (the value Angular gives a
control after `form.reset()`). -/
inductive JsValue where
  | num (n : Int)
  | str (s : String)
  | bool (b : Bool)
  | strList (l : List String)
  | nsObj (defaultNamespace : String) (fallbackList : List String)
  | null
deriving DecidableEq

/-- A settings object (`GlobalSettings` in the source).  Every field is
optional because the component manipulates partial objects: the initial
`{} as GlobalSettings` has no keys, and the object literal built by
`onFormChange_` has only six of the eight keys. -/
structure SettingsObj where
  itemsPerPage : Option JsValue
  labelsLimit : Option JsValue
  clusterName : Option JsValue
  logsAutoRefreshTimeInterval : Option JsValue
  resourceAutoRefreshTimeInterval : Option JsValue
  disableAccessDeniedNotifications : Option JsValue
  defaultNamespace : Option JsValue
  namespaceFallbackList : Option JsValue
deriving DecidableEq

/-- The empty object `{} as GlobalSettings`. -/
def emptySettings : SettingsObj :=
  ⟨none, none, none, none, none, none, none, none⟩

/-- lodash `isEqual` deep equality, which on these plain objects is
structural equality (key sets and values must agree). -/
def isEqual (a b : SettingsObj) : Bool :=
  decide (a = b)

/-- The state of the external `GlobalSettingsService` accessors
(`getItemsPerPage`, `getLabelsLimit`, ...).  These always yield a value
of the proper type for every field. -/
structure ServiceState where
  itemsPerPage : Int
  labelsLimit : Int
  clusterName : String
  logsAutoRefreshTimeInterval : Int
  resourceAutoRefreshTimeInterval : Int
  disableAccessDeniedNotifications : Bool
  defaultNamespace : String
  namespaceFallbackList : List String
deriving DecidableEq

/-- `GlobalSettingsComponent.externalSettings_` (lines 68 to 79): the
settings object reconstructed from the service accessors; all eight
keys are present. -/
def externalSettings_ (svc : ServiceState) : SettingsObj where
  itemsPerPage := some (JsValue.num svc.itemsPerPage)
  labelsLimit := some (JsValue.num svc.labelsLimit)
  clusterName := some (JsValue.str svc.clusterName)
  logsAutoRefreshTimeInterval := some (JsValue.num svc.logsAutoRefreshTimeInterval)
  resourceAutoRefreshTimeInterval := some (JsValue.num svc.resourceAutoRefreshTimeInterval)
  disableAccessDeniedNotifications := some (JsValue.bool svc.disableAccessDeniedNotifications)
  defaultNamespace := some (JsValue.str svc.defaultNamespace)
  namespaceFallbackList := some (JsValue.strList svc.namespaceFallbackList)

/-- The values of the seven form controls built in `ngOnInit`. -/
structure FormState where
  clusterName : JsValue
  itemsPerPage : JsValue
  labelsLimit : JsValue
  logsAutorefreshInterval : JsValue
  resourceAutorefreshInterval : JsValue
  disableAccessDeniedNotification : JsValue
  namespaceSettings : JsValue
deriving DecidableEq

/-- `form.reset()` with no arguments sets every control value to null. -/
def resetFormState : FormState :=
  ⟨JsValue.null, JsValue.null, JsValue.null, JsValue.null, JsValue.null,
    JsValue.null, JsValue.null⟩

/-- The component state: the `settings` field, the `hasLoadError` flag,
the form control values, and the settings stored in the
`SettingsHelperService`. -/
structure ComponentState where
  settings : SettingsObj
  hasLoadError : Bool
  form : FormState
  helperSettings : SettingsObj
deriving DecidableEq

/-- Modelled from the spec: the `SettingsHelperService` (file
`settings/global/service`, which is not among the sources) is the
"Form Binding Layer" that "holds current edited values" and "mirrors
them into a live helper state object on every change".  Assigning to its
`settings` property stores the object and broadcasts it on
`onSettingsChange`; the component subscribes to that stream in
`ngOnInit` (line 97 to 99) with `s => (this.settings = s)`, so the
assignment also updates the component `settings` field. -/
def helperSet (c : ComponentState) (s : SettingsObj) : ComponentState :=
  { c with helperSettings := s, settings := s }

/-- Modelled from the spec: `reload` "clears form and helper state";
`SettingsHelperService.reset()` empties the stored settings object
without broadcasting a change. -/
def helperReset (c : ComponentState) : ComponentState :=
  { c with helperSettings := emptySettings }

/-- The six-field object literal built by `onFormChange_`
(lines 178 to 185) from the form control values; it has no
`defaultNamespace` and no `namespaceFallbackList` key. -/
def formSettings (f : FormState) : SettingsObj where
  itemsPerPage := some f.itemsPerPage
  labelsLimit := some f.labelsLimit
  clusterName := some f.clusterName
  logsAutoRefreshTimeInterval := some f.logsAutorefreshInterval
  resourceAutoRefreshTimeInterval := some f.resourceAutorefreshInterval
  disableAccessDeniedNotifications := some f.disableAccessDeniedNotification
  defaultNamespace := none
  namespaceFallbackList := none

/-- `GlobalSettingsComponent.onFormChange_` (lines 177 to 186): the
value-changes subscription assigns the six-field object to the helper
service settings property. -/
def onFormChange_ (c : ComponentState) : ComponentState :=
  helperSet c (formSettings c.form)

/-- `GlobalSettingsComponent.canSave` (lines 112 to 114):
`!isEqual(this.settings, this.externalSettings_) && !this.hasLoadError`. -/
def canSave (c : ComponentState) (svc : ServiceState) : Bool :=
  !(isEqual c.settings (externalSettings_ svc)) && !c.hasLoadError

/-- Externally visible events, in the order the component performs
them: issuing the `canI` request and the settings load request inside
`load_`, updating the title, pushing the `onSettingsUpdate`
notification, opening the conflict dialog, issuing a save request,
resetting the form, and resetting the helper service. -/
inductive Event where
  | canIRequest
  | loadRequest
  | titleUpdate
  | settingsUpdated
  | dialogOpen
  | saveRequest
  | formReset
  | helperReset
deriving DecidableEq

/-- Events of `load_` (lines 147 to 153): subscribe to `canI()` (which
issues that request) and call `settingsService_.load(...)` (which
issues the load request).  The responses arrive asynchronously and are
handled by `onCanI`, `onLoad_` and `onLoadError_`. -/
def loadEvents : List Event :=
  [Event.canIRequest, Event.loadRequest]

/-- Events of `reload` (lines 106 to 110): `form.reset()`,
`settingsHelperService_.reset()`, then the two requests of `load_`. -/
def reloadEvents : List Event :=
  [Event.formReset, Event.helperReset] ++ loadEvents

/-- `GlobalSettingsComponent.reload` (lines 106 to 110).
`form.reset()` sets every control to null and, because `reset` emits
value-change events, runs `onFormChange_` synchronously; then the
helper service is reset and `load_` issues its requests. -/
def reload (c : ComponentState) : ComponentState × List Event :=
  (helperReset (onFormChange_ { c with form := resetFormState }), reloadEvents)

/-- The `canI` subscription callback inside `load_` (line 151):
`this.hasLoadError = !canI`. -/
def onCanI (c : ComponentState) (canI : Bool) : ComponentState :=
  { c with hasLoadError := !canI }

/-- `GlobalSettingsComponent.onLoadError_` (lines 173 to 175). -/
def onLoadError_ (c : ComponentState) : ComponentState :=
  { c with hasLoadError := true }

/-- A `setValue` call on one form control: update the control value and,
when `emitEvent` is true, run the value-changes handler
`onFormChange_`; with `{emitEvent: false}` the handler does not run. -/
def setValue (c : ComponentState) (upd : FormState → FormState) (emitEvent : Bool) :
    ComponentState :=
  let c1 := { c with form := upd c.form }
  if emitEvent then onFormChange_ c1 else c1

/-- `GlobalSettingsComponent.onLoad_` (lines 155 to 171): set
`this.settings` to the external settings, assign it to the helper
service, then copy the six scalar fields into the form controls with
`{emitEvent: false}` on every `setValue`. -/
def onLoad_ (c : ComponentState) (svc : ServiceState) : ComponentState :=
  let s := externalSettings_ svc
  let c1 := { c with settings := s }
  let c2 := helperSet c1 s
  let c3 := setValue c2 (fun f => { f with itemsPerPage := JsValue.num svc.itemsPerPage }) false
  let c4 := setValue c3 (fun f => { f with labelsLimit := JsValue.num svc.labelsLimit }) false
  let c5 := setValue c4 (fun f => { f with clusterName := JsValue.str svc.clusterName }) false
  let c6 := setValue c5
    (fun f => { f with logsAutorefreshInterval := JsValue.num svc.logsAutoRefreshTimeInterval }) false
  let c7 := setValue c6
    (fun f => { f with resourceAutorefreshInterval := JsValue.num svc.resourceAutoRefreshTimeInterval }) false
  setValue c7
    (fun f => { f with disableAccessDeniedNotification := JsValue.bool svc.disableAccessDeniedNotifications }) false

/-- `GlobalSettingsComponent.concurrentChangeErr_` (line 56). -/
def concurrentChangeErr_ : String :=
  "settings changed since last reload"

/-- Does the list start with the given pattern list? -/
def startsWithList : List Char → List Char → Bool
  | _, [] => true
  | [], _ :: _ => false
  | a :: as, b :: bs => a == b && startsWithList as bs

/-- Does the pattern occur as a contiguous run anywhere in the list? -/
def containsList (pat : List Char) : List Char → Bool
  | [] => pat.isEmpty
  | a :: as => startsWithList (a :: as) pat || containsList pat as

/-- `s.indexOf(pat) !== -1`: the pattern occurs somewhere in `s`. -/
def strContains (s pat : String) : Bool :=
  containsList pat.toList s.toList

/-- The error object carried by an `HttpErrorResponse`; its `error`
field is the response body string the backend sent. -/
structure HttpErr where
  error : String
deriving DecidableEq

/-- The observable returned by `onSaveError_`: either the conflict
dialog `afterClosed()` stream (whose eventual value is the user answer)
or the constant `of(false)`. -/
inductive SaveErrorResult where
  | openDialog
  | value (b : Bool)
deriving DecidableEq

/-- `GlobalSettingsComponent.onSaveError_` (lines 139 to 145): if the
error is truthy and its body contains `concurrentChangeErr_`, open the
save-anyway dialog and return its `afterClosed()` stream; otherwise
return `of(false)`. -/
def onSaveError_ (err : Option HttpErr) : SaveErrorResult :=
  match err with
  | some e =>
    if strContains e.error concurrentChangeErr_ then SaveErrorResult.openDialog
    else SaveErrorResult.value false
  | none => SaveErrorResult.value false

/-- The value delivered to `onSave_`: a `GlobalSettings` object on
success, or a boolean produced by the error path. -/
inductive SaveResultVal where
  | settings (s : SettingsObj)
  | boolean (b : Bool)
deriving DecidableEq

/-- The outcome of the HTTP save request issued by `save`. -/
inductive SaveOutcome where
  | success (result : SettingsObj)
  | failure (err : Option HttpErr)
deriving DecidableEq

/-- `GlobalSettingsComponent.onSave_` (lines 131 to 137): when the
delivered result is the boolean `true`, call `save()` again (whose
synchronous part issues a new save request); then call `reload()`
unconditionally. -/
def onSave_ (c : ComponentState) (result : SaveResultVal) : ComponentState × List Event :=
  let retryEvents :=
    match result with
    | SaveResultVal.boolean true => [Event.saveRequest]
    | _ => []
  let r := reload c
  (r.1, retryEvents ++ r.2)

/-- The events of the success `tap` in `save` (lines 120 to 124):
`this.load_()` first, then `this.title_.update()`, then
`this.settingsService_.onSettingsUpdate.next()`. -/
def tapEvents : List Event :=
  loadEvents ++ [Event.titleUpdate, Event.settingsUpdated]

/-- The pipeline of `save` (lines 116 to 129) handling the response of
one save request.  On success the `tap` runs (its events), then
`onSave_` receives the settings object.  On failure `catchError` runs
`onSaveError_`: either the dialog opens and `onSave_` receives the user
answer, or `onSave_` receives `false`. -/
def handleSaveResponse (c : ComponentState) (out : SaveOutcome) (dialogAnswer : Bool) :
    ComponentState × List Event :=
  match out with
  | SaveOutcome.success s =>
    let r := onSave_ c (SaveResultVal.settings s)
    (r.1, tapEvents ++ r.2)
  | SaveOutcome.failure err =>
    match onSaveError_ err with
    | SaveErrorResult.openDialog =>
      let r := onSave_ c (SaveResultVal.boolean dialogAnswer)
      (r.1, Event.dialogOpen :: r.2)
    | SaveErrorResult.value b =>
      onSave_ c (SaveResultVal.boolean b)

/-- A concrete service state used for concrete evaluations. -/
def svc0 : ServiceState where
  itemsPerPage := 10
  labelsLimit := 3
  clusterName := "kubernetes"
  logsAutoRefreshTimeInterval := 5
  resourceAutoRefreshTimeInterval := 5
  disableAccessDeniedNotifications := false
  defaultNamespace := "default"
  namespaceFallbackList := ["default"]

/-- The initial form state built in `ngOnInit` (lines 82 to 93). -/
def initForm (svc : ServiceState) : FormState where
  clusterName := JsValue.str ""
  itemsPerPage := JsValue.num 0
  labelsLimit := JsValue.num 0
  logsAutorefreshInterval := JsValue.num 0
  resourceAutorefreshInterval := JsValue.num 0
  disableAccessDeniedNotification := JsValue.bool false
  namespaceSettings := JsValue.nsObj svc.defaultNamespace svc.namespaceFallbackList

/-- A concrete component state: just after construction, no load error. -/
def c0 : ComponentState where
  settings := emptySettings
  hasLoadError := false
  form := initForm svc0
  helperSettings := emptySettings

/-- The external settings object of the concrete service state. -/
def s0 : SettingsObj := externalSettings_ svc0

/-- A concrete generic (non-concurrency) save error. -/
def e1 : HttpErr where
  error := "internal error"

/-- C1: `canSave` returns true exactly when the current edited
`settings` object differs under deep equality from the settings
reconstructed from the external settings service and the load-error
flag is false; in every other case it returns false. -/
theorem canSave_iff_differs_and_no_load_error (c : ComponentState) (svc : ServiceState) :
    canSave c svc = true ↔
      ¬c.settings = externalSettings_ svc ∧ c.hasLoadError = false := by
  simp [canSave, isEqual]

/-- C7: a load failure (`onLoadError_`) or a permission denial (the
`canI` callback with a negative answer) sets `hasLoadError`, and every
state whose `hasLoadError` flag is true has `canSave` false, no matter
what the settings objects are. -/
theorem loadError_sets_flag_and_blocks_save (c : ComponentState) (svc : ServiceState) :
    (onLoadError_ c).hasLoadError = true ∧
    (onCanI c false).hasLoadError = true ∧
    canSave (onLoadError_ c) svc = false ∧
    canSave (onCanI c false) svc = false ∧
    canSave { c with hasLoadError := true } svc = false := by
  refine ⟨rfl, rfl, ?_, ?_, ?_⟩ <;> simp [canSave, onLoadError_, onCanI]

/-- C8: after `onLoad_`, the helper state and the component settings
are the full external settings object; every `setValue` was made with
`{emitEvent: false}`, so the change-mirroring handler did not run and
the helper state is not the six-field object mirrored from the form
(they differ in the `defaultNamespace` key); the untouched
namespace-settings control keeps its previous value. -/
theorem onLoad_populates_without_change_notification (c : ComponentState) (svc : ServiceState) :
    (onLoad_ c svc).settings = externalSettings_ svc ∧
    (onLoad_ c svc).helperSettings = externalSettings_ svc ∧
    (onLoad_ c svc).helperSettings ≠ formSettings (onLoad_ c svc).form ∧
    (onLoad_ c svc).form.namespaceSettings = c.form.namespaceSettings := by
  refine ⟨rfl, rfl, ?_, rfl⟩
  simp [onLoad_, setValue, helperSet, externalSettings_, formSettings]

/-- C9: the object `onFormChange_` mirrors into the helper state has
exactly the six scalar keys present and never the `defaultNamespace`
or `namespaceFallbackList` keys, while the external settings object
always has those two keys; consequently after any form change the
edited settings deep-differ from the external settings, even when all
six shared fields agree. -/
theorem formChange_settings_lack_namespace_fields (c : ComponentState) (svc : ServiceState) :
    ((onFormChange_ c).settings.itemsPerPage.isSome ∧
      (onFormChange_ c).settings.clusterName.isSome ∧
      (onFormChange_ c).settings.disableAccessDeniedNotifications.isSome ∧
      (onFormChange_ c).settings.labelsLimit.isSome ∧
      (onFormChange_ c).settings.logsAutoRefreshTimeInterval.isSome ∧
      (onFormChange_ c).settings.resourceAutoRefreshTimeInterval.isSome) ∧
    (onFormChange_ c).settings.defaultNamespace = none ∧
    (onFormChange_ c).settings.namespaceFallbackList = none ∧
    (externalSettings_ svc).defaultNamespace.isSome ∧
    (externalSettings_ svc).namespaceFallbackList.isSome ∧
    (onFormChange_ c).settings ≠ externalSettings_ svc := by
  refine ⟨⟨rfl, rfl, rfl, rfl, rfl, rfl⟩, rfl, rfl, rfl, rfl, ?_⟩
  simp [onFormChange_, helperSet, formSettings, externalSettings_]

/-- C2: when a save request fails, the conflict dialog is opened if and
only if the error body contains the substring
`settings changed since last reload`; for any other error the error
handler produces the plain value `false` and no dialog event appears in
the trace. -/
theorem dialog_opens_iff_concurrent_error (c : ComponentState) (e : HttpErr) (ans : Bool) :
    (Event.dialogOpen ∈ (handleSaveResponse c (SaveOutcome.failure (some e)) ans).2 ↔
      strContains e.error concurrentChangeErr_ = true) ∧
    (onSaveError_ (some e) = SaveErrorResult.value false ↔
      strContains e.error concurrentChangeErr_ = false) := by
  cases h : strContains e.error concurrentChangeErr_ <;>
    cases ans <;>
      simp [handleSaveResponse, onSaveError_, onSave_, reload, reloadEvents, loadEvents, h]

/-- C3: for a failed save, the response trace is: the dialog-open event
exactly when the error is a concurrency conflict, followed by a retried
save request exactly when the dialog answer is affirmative, followed by
the reload; in particular the save request is re-issued exactly once
when the dialog is confirmed, and never when it is declined or the
error was generic. -/
theorem confirmed_dialog_retries_save_once (c : ComponentState) (e : HttpErr) (ans : Bool) :
    (handleSaveResponse c (SaveOutcome.failure (some e)) ans).2 =
      (if strContains e.error concurrentChangeErr_ then
        Event.dialogOpen :: (if ans then [Event.saveRequest] else [])
      else []) ++ reloadEvents ∧
    ((handleSaveResponse c (SaveOutcome.failure (some e)) ans).2.count Event.saveRequest =
      if strContains e.error concurrentChangeErr_ && ans then 1 else 0) := by
  cases h : strContains e.error concurrentChangeErr_ <;>
    cases ans <;>
      simp [handleSaveResponse, onSaveError_, onSave_, reload, reloadEvents, loadEvents, h,
        List.count_cons, List.count_nil]

/-- C6: for a save error whose body does not contain the concurrency
marker, the error handler yields the plain value `false`, no second
save request is issued, and the response handling is exactly a reload:
its trace is the reload trace and its state is the reload state. -/
theorem generic_save_error_only_reloads (c : ComponentState) (e : HttpErr) (ans : Bool)
    (h : strContains e.error concurrentChangeErr_ = false) :
    onSaveError_ (some e) = SaveErrorResult.value false ∧
    (handleSaveResponse c (SaveOutcome.failure (some e)) ans).2 = reloadEvents ∧
    (handleSaveResponse c (SaveOutcome.failure (some e)) ans).2.count Event.saveRequest = 0 ∧
    (handleSaveResponse c (SaveOutcome.failure (some e)) ans).1 = (reload c).1 := by
  simp [handleSaveResponse, onSaveError_, onSave_, reload, reloadEvents, loadEvents, h]

/-- Witness for C6 at a concrete generic error. -/
theorem generic_save_error_only_reloads_witness :
    onSaveError_ (some e1) = SaveErrorResult.value false ∧
    (handleSaveResponse c0 (SaveOutcome.failure (some e1)) false).2 = reloadEvents ∧
    (handleSaveResponse c0 (SaveOutcome.failure (some e1)) false).2.count Event.saveRequest = 0 ∧
    (handleSaveResponse c0 (SaveOutcome.failure (some e1)) false).1 = (reload c0).1 :=
  generic_save_error_only_reloads c0 e1 false (by decide)

/-- C10: every terminal outcome of handling a save response reloads:
the resulting state is the reload of the pre-response state and the
trace ends with the reload events, for a successful save, a declined
or confirmed conflict dialog, and a generic error alike. -/
theorem every_save_outcome_reloads (c : ComponentState) (out : SaveOutcome) (ans : Bool) :
    (handleSaveResponse c out ans).1 = (reload c).1 ∧
    ∃ pre, (handleSaveResponse c out ans).2 = pre ++ reloadEvents := by
  cases out with
  | success s =>
    exact ⟨rfl, tapEvents, rfl⟩
  | failure err =>
    cases err with
    | none => exact ⟨rfl, [], rfl⟩
    | some e =>
      cases h : strContains e.error concurrentChangeErr_ <;> cases ans <;>
        simp [handleSaveResponse, onSaveError_, onSave_, reload, h] <;>
        first
        | exact ⟨[Event.dialogOpen], rfl⟩
        | exact ⟨[Event.dialogOpen, Event.saveRequest], rfl⟩

/-- C4 counterexample: after a concrete successful save, the first
load request in the trace does not come after the title update: the
success `tap` calls `load_` before `title_.update()` and before the
`onSettingsUpdate` notification, so the hooks do not fire before the
next load request. -/
theorem hooks_before_load_request_counterexample :
    ¬ (List.indexOf Event.titleUpdate
        (handleSaveResponse c0 (SaveOutcome.success s0) false).2 <
      List.indexOf Event.loadRequest
        (handleSaveResponse c0 (SaveOutcome.success s0) false).2) := by
  decide

/-- C4 amended: after every successful save, the success `tap` first
issues the load requests (`canI`, then the settings load), then fires
the title-update hook and the settings-updated notification, and only
afterwards does the unconditional reload issue its own load request:
the response trace is exactly this sequence. -/
theorem save_success_trace (c : ComponentState) (s : SettingsObj) (ans : Bool) :
    (handleSaveResponse c (SaveOutcome.success s) ans).2 =
      [Event.canIRequest, Event.loadRequest, Event.titleUpdate, Event.settingsUpdated] ++
        reloadEvents := by
  rfl

/-- C5 counterexample: at a concrete state with no load error,
immediately after the synchronous part of `reload` (form reset, which
runs the change handler, then helper reset, then the load requests
issued), `canSave` is true, not false: the nulled six-field settings
object deep-differs from the external settings until the initiated
load completes. -/
theorem canSave_false_after_reload_counterexample :
    canSave (reload c0).1 svc0 = true := by
  decide

/-- C5 amended: once the load initiated by `reload` completes
(`onLoad_` runs against the service state), `canSave` returns false,
whatever the component state was and whatever the load-error flag is:
`onLoad_` makes the edited settings deep-equal to the external
settings. -/
theorem canSave_false_after_reload_load_completes (c : ComponentState) (svc : ServiceState) :
    canSave (onLoad_ (reload c).1 svc) svc = false := by
  simp [canSave, isEqual, onLoad_, setValue, helperSet]
